import Mathlib

/-
Verification of the multi-stream RTSP capture supervisor
(DeltaX-AI-Lab/rtsp_connection).

The decoder collaborator (cv2.VideoCapture) is external: it is modelled by
oracles describing what each `VideoCapture(url)` / `cap.read()` call does.
Frames, decoder handles and wall-clock instants are modelled as naturals.
-/

namespace RTSP

/-- Outcome of one iteration of a connect retry loop, as seen from the
`try` block `cap = cv2.VideoCapture(url); ret, frame = cap.read()`:
the open may raise, the validating first read may raise (after a handle
`h` was opened), the first read may return a not-ok or null frame, or
the attempt may succeed with handle `h`, first frame `f` and the two
wall-clock readings `t` (`time.time()` for `first_start_time`) and
`t2` (`time.time()` for `latest_timestamp`). -/
inductive Attempt
  | openRaises
  | readRaises (h : Nat)
  | readFails (h : Nat)
  | readOk (h : Nat) (f : Nat) (t : Nat) (t2 : Nat)
deriving Repr, DecidableEq

/-- Outcome of one `cap.read()` inside a background capture loop:
either a frame `f` captured at wall-clock time `t`, or a failed read
(`ret` false or a null frame). -/
inductive ReadOutcome
  | ok (f : Nat) (t : Nat)
  | fail
deriving Repr, DecidableEq

end RTSP

namespace Way1

open RTSP

/-- State of `RTSPStreamer` (run_ffmpeg_oop_multi_thread_report_way1.py,
lines 14-39): decoder handle `cap`, `first_start_time`, `frame_count`,
the shared slot fields `latest_frame` and `latest_timestamp` guarded by
`self.lock`, the capture-thread stop flag `stopped` and the thread
handle `thread`.  The window-creation calls have no state of their own. -/
structure RTSPStreamer where
  cap : Option Nat
  first_start_time : Option Nat
  frame_count : Nat
  latest_frame : Option Nat
  latest_timestamp : Option Nat
  stopped : Bool
  thread : Option Unit
deriving Repr, DecidableEq

/-- RTSPStreamer.__init__ (lines 15-39): cap=None, first_start_time=None,
frame_count=0, latest_frame=None, latest_timestamp=None, stopped=False,
thread=None. -/
def initStreamer : RTSPStreamer :=
  ⟨none, none, 0, none, none, false, none⟩

/-- Result of a `connect_server` call: the streamer state afterwards, the
returned success flag, the decoder handles opened and the handles released
during the call (chronological order), and the number of loop iterations
(attempts) executed. -/
structure ConnectTrace where
  streamer : RTSPStreamer
  ok : Bool
  opened : List Nat
  released : List Nat
  attempts : Nat
deriving Repr, DecidableEq

/-- RTSPStreamer.connect_server (lines 49-87), as a recursion over the
remaining attempts.  `o` is the decoder oracle giving the outcome of
attempt number `i`.  On `openRaises` or `readRaises` the except branch
sleeps and continues (releasing nothing); on a not-ok/null first read the
handle is released and the loop sleeps and continues; on success the
handle is stored, `first_start_time` is set if unset, the first frame is
written into the shared slot, `stopped` is cleared and the capture thread
is started.  Exhausting the attempts returns False with the state
unchanged. -/
def connectGo (o : Nat → Attempt) : RTSPStreamer → Nat → Nat → ConnectTrace
  | s, _, 0 => ⟨s, false, [], [], 0⟩
  | s, i, n+1 =>
    match o i with
    | .openRaises =>
      let r := connectGo o s (i+1) n
      { r with attempts := r.attempts + 1 }
    | .readRaises h =>
      let r := connectGo o s (i+1) n
      { r with opened := h :: r.opened, attempts := r.attempts + 1 }
    | .readFails h =>
      let r := connectGo o s (i+1) n
      { r with opened := h :: r.opened, released := h :: r.released,
               attempts := r.attempts + 1 }
    | .readOk h f t t2 =>
      ⟨{ s with cap := some h,
                first_start_time :=
                  (match s.first_start_time with
                   | none => some t
                   | some u => some u),
                latest_frame := some f,
                latest_timestamp := some t2,
                stopped := false,
                thread := some () },
        true, [h], [], 1⟩

/-- RTSPStreamer.connect_server entry point: the loop starts at attempt 0. -/
def connect_server (o : Nat → Attempt) (s : RTSPStreamer) (try_times : Nat) : ConnectTrace :=
  connectGo o s 0 try_times

/-- One iteration of the body of `_capture_loop` (lines 94-100): on a
successful read the frame and timestamp are written into the shared slot
and `frame_count` is incremented by one; on a failed read nothing happens
(the else branch is commented out in the source). -/
def captureIter (s : RTSPStreamer) : ReadOutcome → RTSPStreamer
  | .ok f t =>
    { s with latest_frame := some f, latest_timestamp := some t,
             frame_count := s.frame_count + 1 }
  | .fail => s

/-- RTSPStreamer._capture_loop (lines 89-103): `while not self.stopped`,
consuming one read outcome per iteration; the loop exits only when the
stop flag is observed. -/
def captureLoop : RTSPStreamer → List ReadOutcome → RTSPStreamer
  | s, [] => s
  | s, r :: rs => if s.stopped then s else captureLoop (captureIter s r) rs

/-- Result of one `release` call: the streamer state afterwards, the
decoder handles closed by this call, and whether a (timeout-bounded,
`timeout=1.0`) join of the capture thread was attempted. -/
structure ReleaseTrace where
  streamer : RTSPStreamer
  closed : List Nat
  joinAttempted : Bool
deriving Repr, DecidableEq

/-- RTSPStreamer.release (lines 105-114): set `stopped`, join the thread
(with a 1.0 s timeout) when one exists, then close the handle and set
`cap` to None when one exists.  Note that `latest_frame` is not touched
and `thread` is not cleared. -/
def release (s : RTSPStreamer) : ReleaseTrace :=
  let s1 := { s with stopped := true }
  match s1.cap with
  | some h => ⟨{ s1 with cap := none }, [h], s1.thread.isSome⟩
  | none => ⟨s1, [], s1.thread.isSome⟩

/-- Decoder handles closed across `k` consecutive `release()` calls. -/
def releasedAcross : RTSPStreamer → Nat → List Nat
  | _, 0 => []
  | s, k+1 => (release s).closed ++ releasedAcross (release s).streamer k

/-- Events a streamer can undergo during a run: a `connect_server` call,
one capture-loop iteration (a no-op when the stop flag is set, matching
the `while not self.stopped` guard), or a `release()` call. -/
inductive Ev
  | connect (o : Nat → Attempt) (tryTimes : Nat)
  | capture (r : ReadOutcome)
  | rel

/-- Effect of one event on the streamer state. -/
def applyEv (s : RTSPStreamer) : Ev → RTSPStreamer
  | .connect o n => (connectGo o s 0 n).streamer
  | .capture r => if s.stopped then s else captureIter s r
  | .rel => (release s).streamer

/-- A run is a sequence of events applied in order. -/
def runEvents : RTSPStreamer → List Ev → RTSPStreamer
  | s, [] => s
  | s, e :: es => runEvents (applyEv s e) es

/-- The poll loop's read of the shared slot (lines 137-139): the current
`latest_frame` under the lock; `None` means no frame yet. -/
def readSlot (s : RTSPStreamer) : Option Nat :=
  s.latest_frame

/-- One outer `while` iteration of `process_streamers` (lines 133-168)
counts how many active streamers currently expose a frame (those with
`latest_frame` absent are skipped); the function returns (number of loop
iterations executed, total frames displayed).  The loop runs once per
clock tick until the duration elapses, with no check that the streamer
list is nonempty. -/
def processStreamers (active : List RTSPStreamer) : Nat → Nat × Nat
  | 0 => (0, 0)
  | t+1 =>
    let shown := (active.filter (fun s => s.latest_frame.isSome)).length
    let r := processStreamers active t
    (r.1 + 1, r.2 + shown)

/-- Observable outcome of `main` (lines 173-229): how many streamers were
created, the total number of connect attempts performed, the size of the
active set, and how many poll-loop iterations ran. -/
structure MainTrace where
  created : Nat
  connectAttempts : Nat
  activeCount : Nat
  pollIters : Nat
deriving Repr, DecidableEq

/-- Way1 main: build one streamer per configured url, call
`connect_server` on each keeping those that succeed, then call
`process_streamers` on the active set for `ticks` clock ticks.  There is
no emptiness check on `urls` anywhere on this path. -/
def mainRun (urls : List Nat) (o : Nat → Nat → Attempt) (try_times ticks : Nat) : MainTrace :=
  let traces := urls.map (fun u => connect_server (o u) initStreamer try_times)
  let active := (traces.filter (fun tr => tr.ok)).map (fun tr => tr.streamer)
  { created := urls.length,
    connectAttempts := (traces.map (fun tr => tr.attempts)).sum,
    activeCount := active.length,
    pollIters := (processStreamers active ticks).1 }

end Way1

namespace Multi

open RTSP

/-- State of `RTSPstreamer` (run_ffmpeg_oop_multi.py): just the decoder
handle `cap` (None when never connected or released). -/
structure RTSPstreamer where
  cap : Option Nat
deriving Repr, DecidableEq

/-- Result of a `__connect_server` call: the returned flag, the stored
handle, the handles opened and released during the call, the attempts
executed and the number of `time.sleep(try_interval)` calls made. -/
structure ConnectTrace where
  ok : Bool
  cap : Option Nat
  opened : List Nat
  released : List Nat
  attempts : Nat
  sleeps : Nat
deriving Repr, DecidableEq

/-- RTSPstreamer.__connect_server (lines 23-47), as a recursion over the
remaining attempts; `o` gives the decoder outcome of attempt `i`.  On an
exception from the open or the first read, the except branch sleeps and
continues without releasing anything; on a not-ok/null first read the
handle is released, then the loop sleeps and continues; on success the
handle is kept and True is returned (no sleep).  Exhausting the attempts
returns False. -/
def connectGo (o : Nat → Attempt) : Nat → Nat → ConnectTrace
  | _, 0 => ⟨false, none, [], [], 0, 0⟩
  | i, n+1 =>
    match o i with
    | .openRaises =>
      let r := connectGo o (i+1) n
      { r with attempts := r.attempts + 1, sleeps := r.sleeps + 1 }
    | .readRaises h =>
      let r := connectGo o (i+1) n
      { r with opened := h :: r.opened, attempts := r.attempts + 1,
               sleeps := r.sleeps + 1 }
    | .readFails h =>
      let r := connectGo o (i+1) n
      { r with opened := h :: r.opened, released := h :: r.released,
               attempts := r.attempts + 1, sleeps := r.sleeps + 1 }
    | .readOk h _ _ _ => ⟨true, some h, [h], [], 1, 0⟩

/-- RTSPstreamer.__connect_server entry point. -/
def connect_server (o : Nat → Attempt) (try_times : Nat) : ConnectTrace :=
  connectGo o 0 try_times

/-- The decoder handles a run of `__connect_server` is expected to have
opened, read off the oracle: one per attempt whose open succeeded
(`readRaises`, `readFails` or `readOk`), up to and including the first
success. -/
def expectedOpened (o : Nat → Attempt) : Nat → Nat → List Nat
  | _, 0 => []
  | i, n+1 =>
    match o i with
    | .openRaises => expectedOpened o (i+1) n
    | .readRaises h => h :: expectedOpened o (i+1) n
    | .readFails h => h :: expectedOpened o (i+1) n
    | .readOk h _ _ _ => [h]

/-- The decoder handles a run of `__connect_server` releases, read off
the oracle: exactly the handles of the attempts whose first read returned
a not-ok/null frame.  Handles of attempts whose first read raised do not
appear: the except branch has no `cap.release()`. -/
def expectedReleased (o : Nat → Attempt) : Nat → Nat → List Nat
  | _, 0 => []
  | i, n+1 =>
    match o i with
    | .openRaises => expectedReleased o (i+1) n
    | .readRaises _ => expectedReleased o (i+1) n
    | .readFails h => h :: expectedReleased o (i+1) n
    | .readOk _ _ _ _ => []

/-- RTSPstreamer.read_next_frame (lines 78-86): returns (False, None)
when `cap` is None, otherwise the pair returned by `cap.read()`,
described by the oracle `decoder`. -/
def read_next_frame (s : RTSPstreamer) (decoder : Nat → Bool × Option Nat) :
    Bool × Option Nat :=
  match s.cap with
  | none => (false, none)
  | some h => decoder h

/-- RTSPstreamer.release (lines 88-92): close the handle and set `cap`
to None when a handle exists, otherwise do nothing.  Returns the new
state and the handles closed by this call. -/
def release (s : RTSPstreamer) : RTSPstreamer × List Nat :=
  match s.cap with
  | some h => (⟨none⟩, [h])
  | none => (s, [])

/-- Decoder handles closed across `k` consecutive `release()` calls. -/
def releasedAcrossM : RTSPstreamer → Nat → List Nat
  | _, 0 => []
  | s, k+1 => (release s).2 ++ releasedAcrossM (release s).1 k

/-- One pass of the poll loop in `main` (lines 119-131) over the active
list.  Streamers are identified by distinct ids; `rOk x` says whether
`x.read_next_frame()` yields a frame this pass and `cOk x` whether the
one bounded reconnect `x.run(2, 2)` succeeds.  The pass returns the list
afterwards and the ids processed (yielded by the `for` iterator), in
order.  The source iterates over `active_streamers` itself while calling
`active_streamers.remove(streamer)` on it: under CPython list-iterator
semantics the iterator yields `l[i]` and advances `i`, so removing the
current element shifts the rest left and the element immediately after a
removed one is skipped (it stays in the list but is not yielded on this
pass).  The recursion below encodes exactly that: a streamer whose read
fails and whose reconnect fails is dropped and its immediate successor
is kept but not processed this pass. -/
def pollPass (rOk cOk : Nat → Bool) : List Nat → List Nat × List Nat
  | [] => ([], [])
  | [x] =>
    if rOk x then ([x], [x])
    else if cOk x then ([x], [x])
    else ([], [x])
  | x :: y :: ys =>
    if rOk x then
      let r := pollPass rOk cOk (y :: ys)
      (x :: r.1, x :: r.2)
    else if cOk x then
      let r := pollPass rOk cOk (y :: ys)
      (x :: r.1, x :: r.2)
    else
      let r := pollPass rOk cOk ys
      (y :: r.1, x :: r.2)

/-- Repeated poll passes: the list of processed-id lists of `k`
consecutive passes of the `while True` loop, each starting from the
active list the previous pass left behind. -/
def pollPasses (rOk cOk : Nat → Bool) : List Nat → Nat → List (List Nat)
  | _, 0 => []
  | l, k+1 =>
    let r := pollPass rOk cOk l
    r.2 :: pollPasses rOk cOk r.1 k

/-- The startup loop of `main` (lines 113-117): every configured source
is attempted in order, one `run(2, 2)` each; the list records each
source's success flag (the active set keeps exactly the successful
ones). -/
def startResults (behaviors : List (Nat → Attempt)) (try_times : Nat) : List Bool :=
  behaviors.map (fun o => (connect_server o try_times).ok)

end Multi

namespace Way2

open RTSP

/-- State of `VideoStream` (run_ffmpeg_oop_multi_thread_report_way2.py):
the shared latest frame and the stop flag. -/
structure VideoStream where
  frame : Option Nat
  stopped : Bool
deriving Repr, DecidableEq

/-- Result of constructing a `VideoStream`: either the process exits
(the `exit()` call on line 15) or a stream is started. -/
inductive InitResult
  | exited
  | started (vs : VideoStream)
deriving Repr, DecidableEq

/-- VideoStream.__init__ (lines 6-19): open the capture; if
`cap.isOpened()` is false, print and call `exit()`, terminating the
whole process; otherwise start the update thread with an empty frame
slot. -/
def initVS (opened : Bool) : InitResult :=
  if opened then .started ⟨none, false⟩ else .exited

/-- One iteration of the body of `VideoStream.update` (lines 21-26): on
`ret` true the frame is stored under the lock, otherwise nothing
happens. -/
def updateIter (s : VideoStream) : ReadOutcome → VideoStream
  | .ok f _ => { s with frame := some f }
  | .fail => s

/-- VideoStream.update: `while not self.stopped`, consuming one read
outcome per iteration. -/
def updateLoop : VideoStream → List ReadOutcome → VideoStream
  | s, [] => s
  | s, r :: rs => if s.stopped then s else updateLoop (updateIter s r) rs

end Way2

namespace Slot

/-
Interleaving model of the per-source frame slot shared between the
capture thread (sole writer, way1 lines 97-99) and the poll loop (sole
reader, way1 lines 137-139), both of which enter `with self.lock:` for
the copy-in / copy-out.  Following the spec's stress-test framing, a
frame is a byte pattern: the frame carrying value `u` is the byte list
`List.replicate L u` for the fixed frame size `L`.  The writer publishes
its pending values one at a time: acquire the lock, write the L bytes of
the pattern one byte per step, release.  The reader: acquire the lock,
copy the L bytes one byte per step, release and record the copied
buffer as a completed read.  A scheduler interleaves the two threads
arbitrarily; a thread scheduled while it is blocked on the lock makes no
progress.
-/

/-- The two parties sharing the slot. -/
inductive Tid
  | writer
  | reader
deriving Repr, DecidableEq

/-- Global state: the lock owner (None when free), the slot bytes (as a
function; only indices below the frame size matter), the writer's
pending values and in-progress write (value, next byte index), the
reader's in-progress copy (next byte index), its partial buffer, and
the completed reads. -/
structure Sys where
  lock : Option Tid
  slot : Nat → Nat
  wPending : List Nat
  wCur : Option (Nat × Nat)
  rCur : Option Nat
  rBuf : List Nat
  reads : List (List Nat)

/-- One step of the capture thread: acquire the lock when free and a
publish is pending; otherwise write the next byte of the current
pattern; release when all `L` bytes are written.  Blocked or idle steps
leave the state unchanged. -/
def wStep (L : Nat) (s : Sys) : Sys :=
  match s.wCur with
  | none =>
    match s.wPending, s.lock with
    | v :: vs, none =>
      { s with lock := some Tid.writer, wCur := some (v, 0), wPending := vs }
    | _, _ => s
  | some (v, i) =>
    if i < L then
      { s with slot := fun j => if j = i then v else s.slot j,
               wCur := some (v, i + 1) }
    else
      { s with lock := none, wCur := none }

/-- One step of the poll loop: acquire the lock when free; otherwise
copy the next byte out of the slot; release when all `L` bytes are
copied, recording the buffer as a completed read. -/
def rStep (L : Nat) (s : Sys) : Sys :=
  match s.rCur with
  | none =>
    match s.lock with
    | none => { s with lock := some Tid.reader, rCur := some 0, rBuf := [] }
    | some _ => s
  | some i =>
    if i < L then
      { s with rBuf := s.rBuf ++ [s.slot i], rCur := some (i + 1) }
    else
      { s with lock := none, rCur := none, reads := s.rBuf :: s.reads }

/-- One scheduler step: run the chosen thread. -/
def step (L : Nat) (s : Sys) : Tid → Sys
  | Tid.writer => wStep L s
  | Tid.reader => rStep L s

/-- Run a whole schedule. -/
def run (L : Nat) (s : Sys) : List Tid → Sys
  | [] => s
  | t :: ts => run L (step L s t) ts

/-- Initial state: lock free, the slot seeded with the complete pattern
of value 0, the writer's publishes pending, nothing in progress. -/
def initSys (vs : List Nat) : Sys :=
  ⟨none, fun _ => 0, vs, none, none, [], []⟩

/-- Invariant tying the lock to the two threads' progress: the lock is
held by the writer exactly when a write is in progress and by the reader
exactly when a copy is in progress (so at most one of the two);
mid-write the slot is the new pattern below the write index and one old
pattern from it up; otherwise the slot is a single complete pattern;
mid-copy the slot is a single complete pattern and the buffer is its
prefix; every completed read is a single complete pattern. -/
structure Inv (L : Nat) (s : Sys) : Prop where
  lockW : s.lock = some Tid.writer ↔ s.wCur ≠ none
  lockR : s.lock = some Tid.reader ↔ s.rCur ≠ none
  wSome : ∀ v i, s.wCur = some (v, i) →
    i ≤ L ∧ (∀ j, j < i → s.slot j = v) ∧
      ∃ u, ∀ j, i ≤ j → j < L → s.slot j = u
  wNone : s.wCur = none → ∃ u, ∀ j, j < L → s.slot j = u
  rSome : ∀ i, s.rCur = some i →
    i ≤ L ∧ ∃ u, (∀ j, j < L → s.slot j = u) ∧ s.rBuf = List.replicate i u
  readsOk : ∀ b, b ∈ s.reads → ∃ u, b = List.replicate L u

theorem inv_initSys (L : Nat) (vs : List Nat) : Inv L (initSys vs) := by
  constructor
  · simp [initSys]
  · simp [initSys]
  · intro v i h; simp [initSys] at h
  · intro _; exact ⟨0, fun j _ => rfl⟩
  · intro i h; simp [initSys] at h
  · intro b hb; simp [initSys] at hb

theorem inv_wStep (L : Nat) (s : Sys) (h : Inv L s) : Inv L (wStep L s) := by
  match hw : s.wCur with
  | none =>
    match hp : s.wPending, hl : s.lock with
    | v :: vs, none =>
      have hr : s.rCur = none := by
        by_contra hc
        have := h.lockR.mpr hc
        rw [hl] at this; exact Option.noConfusion this
      obtain ⟨u, hu⟩ := h.wNone hw
      refine ⟨?_, ?_, ?_, ?_, ?_, ?_⟩ <;>
        simp only [wStep, hw, hp, hl]
      · simp
      · simp [hr]
      · intro v2 i2 h2
        simp only [Option.some.injEq, Prod.mk.injEq] at h2
        obtain ⟨rfl, rfl⟩ := h2
        exact ⟨Nat.zero_le _, fun j hj => absurd hj (Nat.not_lt_zero _),
          ⟨u, fun j _ hj => hu j hj⟩⟩
      · intro h2; exact Option.noConfusion h2
      · intro i h2; rw [hr] at h2; exact Option.noConfusion h2
      · exact h.readsOk
    | [], _ =>
      have : wStep L s = s := by simp [wStep, hw, hp]
      rw [this]; exact h
    | _ :: _, some t =>
      have : wStep L s = s := by simp [wStep, hw, hp, hl]
      rw [this]; exact h
  | some (v, i) =>
    have hlw : s.lock = some Tid.writer := h.lockW.mpr (by rw [hw]; simp)
    have hr : s.rCur = none := by
      by_contra hc
      have := h.lockR.mpr hc
      rw [hlw] at this
      exact Tid.noConfusion (Option.some.inj this)
    obtain ⟨hiL, hpre, u, hsuf⟩ := h.wSome v i hw
    by_cases hiL2 : i < L
    · refine ⟨?_, ?_, ?_, ?_, ?_, ?_⟩ <;>
        simp only [wStep, hw, if_pos hiL2]
      · simp [hlw]
      · simp [hlw, hr]
      · intro v2 i2 h2
        simp only [Option.some.injEq, Prod.mk.injEq] at h2
        obtain ⟨rfl, rfl⟩ := h2
        refine ⟨hiL2, ?_, ⟨u, ?_⟩⟩
        · intro j hj
          by_cases hji : j = i
          · simp [hji]
          · have : j < i := by omega
            simp [hji, hpre j this]
        · intro j hj1 hj2
          have hji : j ≠ i := by omega
          simp [hji, hsuf j (by omega) hj2]
      · intro h2; exact Option.noConfusion h2
      · intro i2 h2; rw [hr] at h2; exact Option.noConfusion h2
      · exact h.readsOk
    · have hieq : i = L := by omega
      refine ⟨?_, ?_, ?_, ?_, ?_, ?_⟩ <;>
        simp only [wStep, hw, if_neg hiL2]
      · simp
      · simp [hr]
      · intro v2 i2 h2; exact Option.noConfusion h2
      · intro _
        exact ⟨v, fun j hj => hpre j (by omega)⟩
      · intro i2 h2; rw [hr] at h2; exact Option.noConfusion h2
      · exact h.readsOk

theorem inv_rStep (L : Nat) (s : Sys) (h : Inv L s) : Inv L (rStep L s) := by
  match hr : s.rCur with
  | none =>
    match hl : s.lock with
    | none =>
      have hw : s.wCur = none := by
        by_contra hc
        have := h.lockW.mpr hc
        rw [hl] at this; exact Option.noConfusion this
      obtain ⟨u, hu⟩ := h.wNone hw
      refine ⟨?_, ?_, ?_, ?_, ?_, ?_⟩ <;>
        simp only [rStep, hr, hl]
      · simp [hw]
      · simp
      · intro v i h2; rw [hw] at h2; exact Option.noConfusion h2
      · intro _; exact ⟨u, hu⟩
      · intro i h2
        simp only [Option.some.injEq] at h2
        subst h2
        exact ⟨Nat.zero_le _, ⟨u, hu, rfl⟩⟩
      · exact h.readsOk
    | some t =>
      have : rStep L s = s := by simp [rStep, hr, hl]
      rw [this]; exact h
  | some i =>
    have hlr : s.lock = some Tid.reader := h.lockR.mpr (by rw [hr]; simp)
    have hw : s.wCur = none := by
      by_contra hc
      have := h.lockW.mpr hc
      rw [hlr] at this
      exact Tid.noConfusion (Option.some.inj this)
    obtain ⟨hiL, u, hu, hbuf⟩ := h.rSome i hr
    by_cases hiL2 : i < L
    · refine ⟨?_, ?_, ?_, ?_, ?_, ?_⟩ <;>
        simp only [rStep, hr, if_pos hiL2]
      · simp [hlr, hw]
      · simp [hlr]
      · intro v i2 h2; rw [hw] at h2; exact Option.noConfusion h2
      · intro _; exact ⟨u, hu⟩
      · intro i2 h2
        simp only [Option.some.injEq] at h2
        subst h2
        refine ⟨hiL2, ⟨u, hu, ?_⟩⟩
        rw [hbuf, hu i hiL2, ← List.replicate_succ' i u]
      · exact h.readsOk
    · have hieq : i = L := by omega
      refine ⟨?_, ?_, ?_, ?_, ?_, ?_⟩ <;>
        simp only [rStep, hr, if_neg hiL2]
      · simp [hw]
      · simp
      · intro v i2 h2; rw [hw] at h2; exact Option.noConfusion h2
      · intro _; exact ⟨u, hu⟩
      · intro i2 h2; exact Option.noConfusion h2
      · intro b hb
        rcases List.mem_cons.mp hb with hb1 | hb2
        · exact ⟨u, by rw [hb1, hbuf, hieq]⟩
        · exact h.readsOk b hb2

theorem inv_step (L : Nat) (s : Sys) (t : Tid) (h : Inv L s) :
    Inv L (step L s t) := by
  cases t
  · exact inv_wStep L s h
  · exact inv_rStep L s h

theorem inv_run (L : Nat) : ∀ (sched : List Tid) (s : Sys), Inv L s →
    Inv L (run L s sched)
  | [], _, h => h
  | t :: ts, s, h => inv_run L ts (step L s t) (inv_step L s t h)

end Slot

namespace Multi

/-- The active list a poll pass leaves behind is a sublist of the list
it started from: the pass only removes elements. -/
theorem pollPass_kept_sublist (rOk cOk : Nat → Bool) :
    ∀ l : List Nat, List.Sublist (pollPass rOk cOk l).1 l
  | [] => by simp [pollPass]
  | [x] => by
    by_cases h1 : rOk x
    · simp [pollPass, h1]
    · by_cases h2 : cOk x
      · simp [pollPass, h1, h2]
      · simp [pollPass, h1, h2]
  | x :: y :: ys => by
    by_cases h1 : rOk x
    · simpa [pollPass, h1] using
        List.Sublist.cons₂ x (pollPass_kept_sublist rOk cOk (y :: ys))
    · by_cases h2 : cOk x
      · simpa [pollPass, h1, h2] using
          List.Sublist.cons₂ x (pollPass_kept_sublist rOk cOk (y :: ys))
      · simpa [pollPass, h1, h2] using
          List.Sublist.cons x
            (List.Sublist.cons₂ y (pollPass_kept_sublist rOk cOk ys))

/-- The ids processed by a poll pass form a sublist of the list the pass
started from (in particular each element is processed at most once per
pass). -/
theorem pollPass_processed_sublist (rOk cOk : Nat → Bool) :
    ∀ l : List Nat, List.Sublist (pollPass rOk cOk l).2 l
  | [] => by simp [pollPass]
  | [x] => by
    by_cases h1 : rOk x
    · simp [pollPass, h1]
    · by_cases h2 : cOk x
      · simp [pollPass, h1, h2]
      · simp [pollPass, h1, h2]
  | x :: y :: ys => by
    by_cases h1 : rOk x
    · simpa [pollPass, h1] using
        List.Sublist.cons₂ x (pollPass_processed_sublist rOk cOk (y :: ys))
    · by_cases h2 : cOk x
      · simpa [pollPass, h1, h2] using
          List.Sublist.cons₂ x (pollPass_processed_sublist rOk cOk (y :: ys))
      · simpa [pollPass, h1, h2] using
          List.Sublist.cons₂ x
            (List.Sublist.cons y (pollPass_processed_sublist rOk cOk ys))

/-- A streamer whose read fails and whose bounded reconnect fails is not
in the active list a poll pass leaves behind, provided the pass
processed it (the active list holds distinct streamers). -/
theorem pollPass_not_mem_kept (rOk cOk : Nat → Bool) (x : Nat)
    (hr : rOk x = false) (hc : cOk x = false) :
    ∀ l : List Nat, l.Nodup → x ∈ (pollPass rOk cOk l).2 →
      x ∉ (pollPass rOk cOk l).1
  | [] => by simp [pollPass]
  | [y] => by
    intro hnd hmem
    by_cases h1 : rOk y
    · simp only [pollPass, if_pos h1, List.mem_singleton] at hmem
      subst hmem
      rw [hr] at h1; exact Bool.noConfusion h1
    · by_cases h2 : cOk y
      · simp only [pollPass, if_neg h1, if_pos h2, List.mem_singleton] at hmem
        subst hmem
        rw [hc] at h2; exact Bool.noConfusion h2
      · simp [pollPass, h1, h2]
  | z :: y :: ys => by
    intro hnd hmem
    have hndt : (y :: ys).Nodup := (List.nodup_cons.mp hnd).2
    by_cases h1 : rOk z
    · simp only [pollPass, if_pos h1, List.mem_cons] at hmem ⊢
      have hxz : x ≠ z := by
        intro he; subst he; rw [hr] at h1; exact Bool.noConfusion h1
      rcases hmem with he | hmem
      · exact absurd he hxz
      · intro hk
        rcases hk with he | hk
        · exact hxz he
        · exact pollPass_not_mem_kept rOk cOk x hr hc (y :: ys) hndt hmem hk
    · by_cases h2 : cOk z
      · simp only [pollPass, if_neg h1, if_pos h2, List.mem_cons] at hmem ⊢
        have hxz : x ≠ z := by
          intro he; subst he; rw [hc] at h2; exact Bool.noConfusion h2
        rcases hmem with he | hmem
        · exact absurd he hxz
        · intro hk
          rcases hk with he | hk
          · exact hxz he
          · exact pollPass_not_mem_kept rOk cOk x hr hc (y :: ys) hndt hmem hk
      · simp only [pollPass, if_neg h1, if_neg h2, List.mem_cons] at hmem ⊢
        have hzny : z ∉ y :: ys := (List.nodup_cons.mp hnd).1
        have hndys : ys.Nodup := (List.nodup_cons.mp hndt).2
        rcases hmem with he | hmem
        · subst he
          intro hk
          rcases hk with he | hk
          · exact hzny (by rw [he]; exact List.mem_cons_self y ys)
          · exact hzny
              (List.mem_cons_of_mem y
                ((pollPass_kept_sublist rOk cOk ys).subset hk))
        · have hxys : x ∈ ys :=
            (pollPass_processed_sublist rOk cOk ys).subset hmem
          have hxny : x ≠ y := by
            intro he; subst he
            exact (List.nodup_cons.mp hndt).1 hxys
          intro hk
          rcases hk with he | hk
          · exact hxny he
          · exact pollPass_not_mem_kept rOk cOk x hr hc ys hndys hmem hk

/-- A streamer absent from the active list is never processed by any
later poll pass. -/
theorem pollPasses_not_mem (rOk cOk : Nat → Bool) (x : Nat) :
    ∀ (k : Nat) (l : List Nat), x ∉ l →
      ∀ p ∈ pollPasses rOk cOk l k, x ∉ p
  | 0, l, hx => by simp [pollPasses]
  | k+1, l, hx => by
    intro p hp
    simp only [pollPasses, List.mem_cons] at hp
    rcases hp with rfl | hp
    · intro hmem
      exact hx ((pollPass_processed_sublist rOk cOk l).subset hmem)
    · have hx2 : x ∉ (pollPass rOk cOk l).1 := fun hm =>
        hx ((pollPass_kept_sublist rOk cOk l).subset hm)
      exact pollPasses_not_mem rOk cOk x k (pollPass rOk cOk l).1 hx2 p hp

end Multi

namespace Way1

open RTSP

/-- connect_server never changes `frame_count`: in particular seeding the
slot with the first frame on a successful attempt does not increment
it. -/
theorem connectGo_frame_count (o : Nat → Attempt) :
    ∀ (n i : Nat) (s : RTSPStreamer),
      ((connectGo o s i n).streamer).frame_count = s.frame_count
  | 0, _, _ => rfl
  | n+1, i, s => by
    cases h : o i <;>
      simp [connectGo, h, connectGo_frame_count o n (i+1) s]

/-- connect_server never empties the slot: if `latest_frame` holds a
frame before the call it still holds one afterwards. -/
theorem connectGo_latest_isSome (o : Nat → Attempt) :
    ∀ (n i : Nat) (s : RTSPStreamer), s.latest_frame.isSome = true →
      ((connectGo o s i n).streamer).latest_frame.isSome = true
  | 0, _, _, h => h
  | n+1, i, s, h => by
    cases ho : o i <;>
      simp [connectGo, ho, connectGo_latest_isSome o n (i+1) s h]

/-- Field bookkeeping of one `release()` call: the slot, the counter and
the `first_start_time` are untouched, the stop flag is set and the
handle is cleared. -/
theorem release_fields (s : RTSPStreamer) :
    (release s).streamer.latest_frame = s.latest_frame ∧
    (release s).streamer.frame_count = s.frame_count ∧
    (release s).streamer.stopped = true ∧
    (release s).streamer.cap = none ∧
    (release s).streamer.thread = s.thread := by
  cases h : s.cap <;> simp [release, h]

/-- No event ever decreases `frame_count`. -/
theorem applyEv_frame_count_mono (s : RTSPStreamer) (e : Ev) :
    s.frame_count ≤ (applyEv s e).frame_count := by
  cases e with
  | connect o n =>
    rw [applyEv, connectGo_frame_count]
  | capture r =>
    by_cases hs : s.stopped
    · simp [applyEv, hs]
    · cases r <;> simp [applyEv, hs, captureIter]
  | rel =>
    rw [applyEv, (release_fields s).2.1]

/-- No event ever empties the slot once it holds a frame. -/
theorem applyEv_latest_isSome (s : RTSPStreamer) (e : Ev)
    (h : s.latest_frame.isSome = true) :
    (applyEv s e).latest_frame.isSome = true := by
  cases e with
  | connect o n => exact connectGo_latest_isSome o n 0 s h
  | capture r =>
    by_cases hs : s.stopped
    · simpa [applyEv, hs] using h
    · cases r <;> simp [applyEv, hs, captureIter] <;> simpa using h
  | rel =>
    rw [applyEv, (release_fields s).1]; exact h

/-- Once the slot holds a frame it holds one for the rest of the run,
whatever events (connects, capture iterations, releases) occur. -/
theorem runEvents_latest_isSome :
    ∀ (es : List Ev) (s : RTSPStreamer), s.latest_frame.isSome = true →
      (runEvents s es).latest_frame.isSome = true
  | [], _, h => h
  | e :: es, s, h =>
    runEvents_latest_isSome es (applyEv s e) (applyEv_latest_isSome s e h)

/-- A streamer with no handle closes nothing, however often it is
released. -/
theorem releasedAcross_none :
    ∀ (k : Nat) (s : RTSPStreamer), s.cap = none → releasedAcross s k = []
  | 0, _, _ => rfl
  | k+1, s, h => by
    have h2 : (release s).streamer.cap = none := (release_fields s).2.2.2.1
    have h3 : (release s).closed = [] := by simp [release, h]
    simp only [releasedAcross]
    rw [h3, releasedAcross_none k _ h2]
    rfl

/-- Across any positive number of consecutive `release()` calls the
handles closed are exactly the handle held at the start: one close when
a handle was open, none when not, and never a second close. -/
theorem releasedAcross_succ (s : RTSPStreamer) (k : Nat) :
    releasedAcross s (k+1) = s.cap.toList := by
  have h2 : (release s).streamer.cap = none := (release_fields s).2.2.2.1
  have h4 := releasedAcross_none k _ h2
  simp only [releasedAcross]
  rw [h4]
  cases h : s.cap with
  | none =>
    have h3 : (release s).closed = [] := by simp [release, h]
    simp [h3]
  | some hd =>
    have h3 : (release s).closed = [hd] := by simp [release, h]
    simp [h3]

/-- The state reached by `release()` is a fixed point: releasing again
changes nothing. -/
theorem release_idem (s : RTSPStreamer) :
    (release (release s).streamer).streamer = (release s).streamer := by
  cases h : s.cap <;> simp [release, h]

/-- The poll loop of process_streamers runs exactly one iteration per
clock tick until the duration elapses, regardless of whether any
streamer is active. -/
theorem processStreamers_iters (a : List RTSPStreamer) :
    ∀ t : Nat, (processStreamers a t).1 = t
  | 0 => rfl
  | t+1 => by simp [processStreamers, processStreamers_iters a t]

end Way1

namespace Multi

open RTSP

/-- A run of `__connect_server` executes at most `try_times` loop
iterations. -/
theorem connectGo_le (o : Nat → Attempt) :
    ∀ (n i : Nat), (connectGo o i n).attempts ≤ n
  | 0, _ => Nat.le_refl 0
  | n+1, i => by
    cases h : o i <;> simp [connectGo, h] <;>
      exact connectGo_le o n (i+1)

/-- When `__connect_server` returns failure it has used the whole
attempt budget, slept after every attempt, and holds no handle. -/
theorem connectGo_fail (o : Nat → Attempt) :
    ∀ (n i : Nat), (connectGo o i n).ok = false →
      (connectGo o i n).attempts = n ∧ (connectGo o i n).cap = none ∧
        (connectGo o i n).sleeps = n
  | 0, _, _ => ⟨rfl, rfl, rfl⟩
  | n+1, i, h => by
    cases ho : o i with
    | readOk hh f t t2 => simp [connectGo, ho] at h
    | openRaises =>
      simp only [connectGo, ho] at h ⊢
      obtain ⟨h1, h2, h3⟩ := connectGo_fail o n (i+1) h
      simp [h1, h2, h3]
    | readRaises hh =>
      simp only [connectGo, ho] at h ⊢
      obtain ⟨h1, h2, h3⟩ := connectGo_fail o n (i+1) h
      simp [h1, h2, h3]
    | readFails hh =>
      simp only [connectGo, ho] at h ⊢
      obtain ⟨h1, h2, h3⟩ := connectGo_fail o n (i+1) h
      simp [h1, h2, h3]

/-- The handles `__connect_server` opens and releases are exactly the
ones `expectedOpened` and `expectedReleased` read off the oracle: every
attempt whose open succeeded contributes an opened handle, but only the
attempts whose first read returned not-ok/null contribute a released
one — a first read that raises leaves its handle unreleased. -/
theorem connectGo_effects (o : Nat → Attempt) :
    ∀ (n i : Nat), (connectGo o i n).released = expectedReleased o i n ∧
      (connectGo o i n).opened = expectedOpened o i n
  | 0, _ => ⟨rfl, rfl⟩
  | n+1, i => by
    cases ho : o i <;>
      simp [connectGo, expectedReleased, expectedOpened, ho,
        (connectGo_effects o n (i+1)).1, (connectGo_effects o n (i+1)).2]

/-- Releasing a streamer that holds no handle closes nothing, however
often. -/
theorem releasedAcrossM_none :
    ∀ (k : Nat) (s : RTSPstreamer), s.cap = none → releasedAcrossM s k = []
  | 0, _, _ => rfl
  | k+1, s, h => by
    have h2 : (release s).1.cap = none := by simp [release, h]
    have h3 : (release s).2 = [] := by simp [release, h]
    simp [releasedAcrossM, h3, releasedAcrossM_none k _ h2]

/-- Across any positive number of consecutive `release()` calls the
handles closed are exactly the handle held at the start. -/
theorem releasedAcrossM_succ (s : RTSPstreamer) (k : Nat) :
    releasedAcrossM s (k+1) = s.cap.toList := by
  cases h : s.cap with
  | none => simp [releasedAcrossM, release, h, releasedAcrossM_none k s h]
  | some hd =>
    have h5 : releasedAcrossM (⟨none⟩ : RTSPstreamer) k = [] :=
      releasedAcrossM_none k ⟨none⟩ rfl
    simp [releasedAcrossM, release, h, h5]

/-- The state reached by `release()` is a fixed point. -/
theorem releaseM_idem (s : RTSPstreamer) :
    (release (release s).1).1 = (release s).1 := by
  cases h : s.cap <;> simp [release, h]

end Multi

namespace RTSP

/-- Decoder oracle whose every connect attempt succeeds with handle 0,
first frame 7 and clock readings 3 and 4. -/
def oracleOk : Nat → Attempt := fun _ => .readOk 0 7 3 4

/-- Decoder oracle whose first attempt opens handle 5 and then raises on
the validating first read; every later attempt raises on the open. -/
def oracleLeak : Nat → Attempt := fun i => if i = 0 then .readRaises 5 else .openRaises

/-- Decoder oracle whose every attempt raises on the open. -/
def oracleRaise : Nat → Attempt := fun _ => .openRaises

/-- Decoder oracle whose every attempt opens handle 6 and then returns a
not-ok/null first frame. -/
def oracleFailRead : Nat → Attempt := fun _ => .readFails 6

/-- Per-source decoder oracle whose every attempt raises on the open. -/
def oracleRaise2 : Nat → Nat → Attempt := fun _ _ => .openRaises

end RTSP

namespace Way1

/-- The way1 streamer state after one successful `connect_server` call
from the initial state: handle 0 held, clock 3 recorded, the slot seeded
with frame 7 at time 4, the capture thread started. -/
def sConn : RTSPStreamer := (connect_server RTSP.oracleOk initStreamer 2).streamer

end Way1

namespace Multi

/-- Poll-phase containment: a source whose read succeeds, or whose one
bounded reconnect succeeds, is never dropped by a poll pass — the
removal in the pass only ever drops the failing source itself. -/
theorem pollPass_healthy_kept (rOk cOk : Nat → Bool) :
    ∀ (l : List Nat) (y : Nat), y ∈ l → rOk y = true ∨ cOk y = true →
      y ∈ (pollPass rOk cOk l).1
  | [], y, hy, _ => absurd hy (List.not_mem_nil y)
  | [x], y, hy, hok => by
    have hxy : y = x := List.mem_singleton.mp hy
    subst hxy
    rcases hok with h1 | h2
    · simp [pollPass, h1]
    · by_cases hr : rOk y
      · simp [pollPass, hr]
      · simp [pollPass, hr, h2]
  | x :: z :: zs, y, hy, hok => by
    rcases List.mem_cons.mp hy with rfl | hmem
    · rcases hok with h1 | h2
      · simp [pollPass, h1]
      · by_cases hr : rOk y
        · simp [pollPass, hr]
        · simp [pollPass, hr, h2]
    · by_cases hr : rOk x
      · have ih := pollPass_healthy_kept rOk cOk (z :: zs) y hmem hok
        simp only [pollPass, if_pos hr, List.mem_cons]
        exact Or.inr ih
      · by_cases hc : cOk x
        · have ih := pollPass_healthy_kept rOk cOk (z :: zs) y hmem hok
          simp only [pollPass, if_neg hr, if_pos hc, List.mem_cons]
          exact Or.inr ih
        · rcases List.mem_cons.mp hmem with rfl | hmem2
          · simp [pollPass, hr, hc]
          · have ih := pollPass_healthy_kept rOk cOk zs y hmem2 hok
            simp only [pollPass, if_neg hr, if_neg hc, List.mem_cons]
            exact Or.inr ih

/-- When every source in the active list reads successfully, a poll
pass removes nothing and processes every source, in order. -/
theorem pollPass_all_ok (rOk cOk : Nat → Bool) :
    ∀ l : List Nat, (∀ y ∈ l, rOk y = true) →
      (pollPass rOk cOk l).1 = l ∧ (pollPass rOk cOk l).2 = l
  | [], _ => ⟨rfl, rfl⟩
  | [x], h => by simp [pollPass, h x (List.mem_singleton_self x)]
  | x :: z :: zs, h => by
    have hx : rOk x = true := h x (List.mem_cons_self x (z :: zs))
    have ih := pollPass_all_ok rOk cOk (z :: zs)
      (fun y hy => h y (List.mem_cons_of_mem x hy))
    simp [pollPass, hx, ih.1, ih.2]

end Multi

/-- Poll-loop read behavior used as a concrete input: every streamer id
except 2 yields a frame. -/
def rOkCex : Nat → Bool := fun n => n != 2

/-- Poll-loop reconnect behavior used as a concrete input: every bounded
reconnect fails. -/
def cOkCex : Nat → Bool := fun _ => false

/-- C1 counterexample: after a failed read the way1 capture loop keeps
iterating.  On the read trace [fail, ok 9 6] starting from the connected
streamer `sConn`, the read that comes after the failed one is still
processed — `frame_count` reaches 1 and frame 9 is published — and no
failure state is recorded (the stop flag stays off; the streamer has no
state field that could be set to Failed).  The claim says the loop sets
the state to Failed at the failed read, terminates, and never continues
iterating. -/
theorem c1_counterexample :
    (Way1.captureLoop Way1.sConn
        [RTSP.ReadOutcome.fail, RTSP.ReadOutcome.ok 9 6]).frame_count = 1 ∧
    (Way1.captureLoop Way1.sConn
        [RTSP.ReadOutcome.fail, RTSP.ReadOutcome.ok 9 6]).latest_frame = some 9 ∧
    (Way1.captureLoop Way1.sConn
        [RTSP.ReadOutcome.fail, RTSP.ReadOutcome.ok 9 6]).stopped = false :=
  ⟨rfl, rfl, rfl⟩

/-- C1 (amended): when a decoder read inside the background capture loop
fails, the loop records no failure state and does not terminate: the
failed iteration leaves the streamer unchanged and the loop proceeds to
the next read — the loop itself is what retries the read — and it stops
only when the stop flag is set.  The way2 update loop behaves the same
way. -/
theorem c1_capture_loop_continues_after_failed_read :
    (∀ s : Way1.RTSPStreamer, Way1.captureIter s RTSP.ReadOutcome.fail = s) ∧
    (∀ (s : Way1.RTSPStreamer) (rs : List RTSP.ReadOutcome), s.stopped = false →
      Way1.captureLoop s (RTSP.ReadOutcome.fail :: rs) = Way1.captureLoop s rs) ∧
    (∀ (s : Way1.RTSPStreamer) (rs : List RTSP.ReadOutcome), s.stopped = true →
      Way1.captureLoop s rs = s) ∧
    (∀ vs : Way2.VideoStream, Way2.updateIter vs RTSP.ReadOutcome.fail = vs) ∧
    (∀ (vs : Way2.VideoStream) (rs : List RTSP.ReadOutcome), vs.stopped = false →
      Way2.updateLoop vs (RTSP.ReadOutcome.fail :: rs) = Way2.updateLoop vs rs) := by
  refine ⟨fun s => rfl, ?_, ?_, fun vs => rfl, ?_⟩
  · intro s rs hs
    simp [Way1.captureLoop, hs, Way1.captureIter]
  · intro s rs hs
    cases rs <;> simp [Way1.captureLoop, hs]
  · intro vs rs hs
    simp [Way2.updateLoop, hs, Way2.updateIter]

/-- C1 witness: the amended statement applied to the connected streamer
`sConn` and the trace continuing past a failed read. -/
theorem c1_witness :
    Way1.captureLoop Way1.sConn
        (RTSP.ReadOutcome.fail :: [RTSP.ReadOutcome.ok 9 6]) =
      Way1.captureLoop Way1.sConn [RTSP.ReadOutcome.ok 9 6] :=
  c1_capture_loop_continues_after_failed_read.2.1 Way1.sConn
    [RTSP.ReadOutcome.ok 9 6] rfl

/-- C2 counterexample: `connect_server` seeds the frame slot on success —
a successful publish of a frame into the slot, `latest_frame` going from
absent to frame 7 — yet `frame_count` stays 0 instead of being
incremented by exactly 1 for that publish: the increment happens only in
the capture loop, not for the seeding publish. -/
theorem c2_counterexample :
    Way1.initStreamer.latest_frame = none ∧
    (Way1.connect_server RTSP.oracleOk Way1.initStreamer 2).ok = true ∧
    Way1.sConn.latest_frame = some 7 ∧
    Way1.sConn.frame_count = 0 :=
  ⟨rfl, rfl, rfl, rfl⟩

/-- C2 (amended): `frame_count` starts at 0 at construction, no event of
a run (connect, capture iteration, release) ever decreases it, and every
successful capture-loop publish increments it by exactly 1 while storing
the published frame; the seeding publish performed by `connect_server`
leaves it unchanged. -/
theorem c2_frame_count_monotone :
    Way1.initStreamer.frame_count = 0 ∧
    (∀ (s : Way1.RTSPStreamer) (e : Way1.Ev),
      s.frame_count ≤ (Way1.applyEv s e).frame_count) ∧
    (∀ (s : Way1.RTSPStreamer) (f t : Nat), s.stopped = false →
      (Way1.applyEv s (Way1.Ev.capture (RTSP.ReadOutcome.ok f t))).frame_count =
          s.frame_count + 1 ∧
        (Way1.applyEv s (Way1.Ev.capture (RTSP.ReadOutcome.ok f t))).latest_frame =
          some f) ∧
    (∀ (o : Nat → RTSP.Attempt) (s : Way1.RTSPStreamer) (n : Nat),
      ((Way1.connectGo o s 0 n).streamer).frame_count = s.frame_count) := by
  refine ⟨rfl, Way1.applyEv_frame_count_mono, ?_,
    fun o s n => Way1.connectGo_frame_count o n 0 s⟩
  intro s f t hs
  constructor <;> simp [Way1.applyEv, hs, Way1.captureIter]

/-- C2 witness: one successful capture publish on the connected streamer
`sConn` increments the counter by exactly one. -/
theorem c2_witness :
    (Way1.applyEv Way1.sConn
        (Way1.Ev.capture (RTSP.ReadOutcome.ok 9 6))).frame_count =
      Way1.sConn.frame_count + 1 ∧
    (Way1.applyEv Way1.sConn
        (Way1.Ev.capture (RTSP.ReadOutcome.ok 9 6))).latest_frame = some 9 :=
  c2_frame_count_monotone.2.2.1 Way1.sConn 9 6 rfl

/-- C3 counterexample: with the oracle whose first attempt opens handle 5
and then raises on the validating first read, a 2-attempt run of
`__connect_server` performs both attempts — so a next attempt does follow
the exception — but handle 5, though opened, is never released: the
except branch contains no `cap.release()`.  The claim says the handle is
released before the next attempt even when the first read raises. -/
theorem c3_counterexample :
    (Multi.connect_server RTSP.oracleLeak 2).opened = [5] ∧
    (Multi.connect_server RTSP.oracleLeak 2).released = [] ∧
    (Multi.connect_server RTSP.oracleLeak 2).attempts = 2 ∧
    (Multi.connect_server RTSP.oracleLeak 2).ok = false :=
  ⟨rfl, rfl, rfl, rfl⟩

/-- C3 (amended): connect(max_attempts, retry_interval) performs at most
max_attempts open-then-first-read attempts; on failure it has used the
whole budget, slept the fixed interval after every failed attempt, and
retains no handle; the handles it releases are exactly those of the
attempts whose first read returned a not-ok/null frame — the handle of
an attempt whose first read raises an exception is opened but never
released, leaking across the retries. -/
theorem c3_connect_retry_budget_and_release :
    (∀ (o : Nat → RTSP.Attempt) (n : Nat),
      (Multi.connect_server o n).attempts ≤ n) ∧
    (∀ (o : Nat → RTSP.Attempt) (n : Nat),
      (Multi.connect_server o n).ok = false →
        (Multi.connect_server o n).attempts = n ∧
          (Multi.connect_server o n).cap = none ∧
          (Multi.connect_server o n).sleeps = n) ∧
    (∀ (o : Nat → RTSP.Attempt) (n : Nat),
      (Multi.connect_server o n).released = Multi.expectedReleased o 0 n ∧
        (Multi.connect_server o n).opened = Multi.expectedOpened o 0 n) :=
  ⟨fun o n => Multi.connectGo_le o n 0,
    fun o n h => Multi.connectGo_fail o n 0 h,
    fun o n => Multi.connectGo_effects o n 0⟩

/-- C3 witness: the amended statement applied to the leaking oracle with
a 2-attempt budget. -/
theorem c3_witness :
    (Multi.connect_server RTSP.oracleLeak 2).attempts = 2 ∧
      (Multi.connect_server RTSP.oracleLeak 2).cap = none ∧
      (Multi.connect_server RTSP.oracleLeak 2).sleeps = 2 :=
  c3_connect_retry_budget_and_release.2.1 RTSP.oracleLeak 2 rfl

/-- C4 counterexample: `release()` does not clear the slot: after
releasing the connected streamer `sConn` (whose slot was seeded with
frame 7), the slot still exposes frame 7.  The claim says that after
release the slot no longer exposes a frame. -/
theorem c4_counterexample :
    (Way1.release Way1.sConn).streamer.latest_frame = some 7 ∧
    Way1.readSlot (Way1.release Way1.sConn).streamer = some 7 :=
  ⟨rfl, rfl⟩

/-- C4 (amended): after the first successful publish into its frame slot,
read() never returns an absent frame — under any subsequent sequence of
events, releases included; `release()` stops the capture and closes the
handle but leaves the slot untouched, so the slot continues to expose
the last frame even after release. -/
theorem c4_slot_persists :
    (∀ (s : Way1.RTSPStreamer) (es : List Way1.Ev),
      s.latest_frame.isSome = true →
        ((Way1.runEvents s es).latest_frame).isSome = true) ∧
    (∀ s : Way1.RTSPStreamer,
      Way1.readSlot (Way1.release s).streamer = Way1.readSlot s) :=
  ⟨fun s es h => Way1.runEvents_latest_isSome es s h,
    fun s => (Way1.release_fields s).1⟩

/-- C4 witness: the amended statement applied to the connected streamer
`sConn` undergoing a release. -/
theorem c4_witness :
    ((Way1.runEvents Way1.sConn [Way1.Ev.rel]).latest_frame).isSome = true :=
  c4_slot_persists.1 Way1.sConn [Way1.Ev.rel] rfl

/-- C5: release() is idempotent and safe from any state (Connected,
Failed, Disconnected alike): every call sets the stop flag, a
(timeout-bounded) join is attempted exactly when a capture thread
exists, the state after the first release is a fixed point of release,
and across any positive number of consecutive release calls the decoder
handle open at the start is closed exactly once — and nothing is closed
when no handle was open (no double-release, no leak).  The same holds
for the run_ffmpeg_oop_multi.py release. -/
theorem c5_release_idempotent_close_once :
    (∀ s : Way1.RTSPStreamer, (Way1.release s).streamer.stopped = true) ∧
    (∀ s : Way1.RTSPStreamer,
      (Way1.release s).joinAttempted = s.thread.isSome) ∧
    (∀ s : Way1.RTSPStreamer,
      (Way1.release (Way1.release s).streamer).streamer =
        (Way1.release s).streamer) ∧
    (∀ (s : Way1.RTSPStreamer) (k : Nat),
      Way1.releasedAcross s (k+1) = s.cap.toList) ∧
    (∀ s : Multi.RTSPstreamer,
      (Multi.release (Multi.release s).1).1 = (Multi.release s).1) ∧
    (∀ (s : Multi.RTSPstreamer) (k : Nat),
      Multi.releasedAcrossM s (k+1) = s.cap.toList) := by
  refine ⟨fun s => (Way1.release_fields s).2.2.1, ?_, Way1.release_idem,
    Way1.releasedAcross_succ, Multi.releaseM_idem, Multi.releasedAcrossM_succ⟩
  intro s
  cases h : s.cap <;> simp [Way1.release, h]

/-- C6: in the supervisor poll loop of run_ffmpeg_oop_multi.py, a
streamer whose read fails and whose one bounded reconnect also fails is,
once processed by a pass, processed exactly once in that pass, absent
from the active list the pass leaves behind, and never processed again
by any of the following poll passes (the active list holds distinct
streamers). -/
theorem c6_failed_connection_removed_once (rOk cOk : Nat → Bool)
    (l : List Nat) (x : Nat) (k : Nat) (hnd : l.Nodup)
    (hr : rOk x = false) (hc : cOk x = false)
    (hx : x ∈ (Multi.pollPass rOk cOk l).2) :
    (Multi.pollPass rOk cOk l).2.count x = 1 ∧
    x ∉ (Multi.pollPass rOk cOk l).1 ∧
    ∀ p ∈ Multi.pollPasses rOk cOk (Multi.pollPass rOk cOk l).1 k, x ∉ p := by
  have hnd2 : (Multi.pollPass rOk cOk l).2.Nodup :=
    List.Nodup.sublist (Multi.pollPass_processed_sublist rOk cOk l) hnd
  exact ⟨List.count_eq_one_of_mem hnd2 hx,
    Multi.pollPass_not_mem_kept rOk cOk x hr hc l hnd hx,
    Multi.pollPasses_not_mem rOk cOk x k _
      (Multi.pollPass_not_mem_kept rOk cOk x hr hc l hnd hx)⟩

/-- C6 witness: with active list [1, 2, 3], streamer 2 failing its read
and its reconnect, one pass processes 2 exactly once, removes it, and
two further passes never process it again. -/
theorem c6_witness :
    (Multi.pollPass rOkCex cOkCex [1, 2, 3]).2.count 2 = 1 ∧
    2 ∉ (Multi.pollPass rOkCex cOkCex [1, 2, 3]).1 ∧
    ∀ p ∈ Multi.pollPasses rOkCex cOkCex
        (Multi.pollPass rOkCex cOkCex [1, 2, 3]).1 2, 2 ∉ p :=
  c6_failed_connection_removed_once rOkCex cOkCex [1, 2, 3] 2 2
    (by decide) (by decide) (by decide) (by decide)

/-- C7 counterexample: in way2 a failed open during VideoStream
construction calls exit() and terminates the whole process — an open
failure of a single source does terminate the process there,
contradicting the claim. -/
theorem c7_counterexample : Way2.initVS false = Way2.InitResult.exited :=
  rfl

/-- C7 (amended): in the retrying variants a failing source is contained:
an attempt whose open raises, whose first read raises, or whose first
read returns a not-ok/null frame is handled inside the connect retry
loop, which proceeds to the next attempt (the loop's overall outcome is
that of the remaining attempts); the startup loop attempts every
configured source whatever the outcomes of the others; and in the
steady-state poll loop a failure removes only the failing source
itself — every source whose read succeeds or whose bounded reconnect
succeeds stays in the active rotation, and when all remaining sources
read successfully every one of them is polled on each pass — so the
overall run continues.  In the minimal threaded variant (way2),
however, an open failure during VideoStream construction terminates the
process via exit(). -/
theorem c7_failures_contained_or_exit :
    (∀ (o : Nat → RTSP.Attempt) (i n : Nat),
      o i = RTSP.Attempt.openRaises →
        (Multi.connectGo o i (n+1)).ok = (Multi.connectGo o (i+1) n).ok) ∧
    (∀ (o : Nat → RTSP.Attempt) (i n h : Nat),
      o i = RTSP.Attempt.readRaises h →
        (Multi.connectGo o i (n+1)).ok = (Multi.connectGo o (i+1) n).ok) ∧
    (∀ (o : Nat → RTSP.Attempt) (i n h : Nat),
      o i = RTSP.Attempt.readFails h →
        (Multi.connectGo o i (n+1)).ok = (Multi.connectGo o (i+1) n).ok) ∧
    (∀ (bs : List (Nat → RTSP.Attempt)) (n : Nat),
      (Multi.startResults bs n).length = bs.length) ∧
    (∀ (rOk cOk : Nat → Bool) (l : List Nat) (y : Nat), y ∈ l →
      rOk y = true ∨ cOk y = true → y ∈ (Multi.pollPass rOk cOk l).1) ∧
    (∀ (rOk cOk : Nat → Bool) (l : List Nat), (∀ y ∈ l, rOk y = true) →
      (Multi.pollPass rOk cOk l).1 = l ∧ (Multi.pollPass rOk cOk l).2 = l) ∧
    Way2.initVS false = Way2.InitResult.exited := by
  refine ⟨?_, ?_, ?_, ?_, Multi.pollPass_healthy_kept,
    Multi.pollPass_all_ok, rfl⟩
  · intro o i n h; simp [Multi.connectGo, h]
  · intro o i n hh h; simp [Multi.connectGo, h]
  · intro o i n hh h; simp [Multi.connectGo, h]
  · intro bs n; simp [Multi.startResults]

/-- C7 witness: the amended statement applied at concrete inputs: the
connect loop continues past an attempt whose first read returns
not-ok/null, and on active list [1, 2, 3] where only streamer 2 fails
its read and reconnect, the healthy streamer 1 survives the poll
pass. -/
theorem c7_witness :
    ((Multi.connectGo RTSP.oracleFailRead 0 1).ok =
        (Multi.connectGo RTSP.oracleFailRead 1 0).ok) ∧
      1 ∈ (Multi.pollPass rOkCex cOkCex [1, 2, 3]).1 :=
  ⟨c7_failures_contained_or_exit.2.2.1 RTSP.oracleFailRead 0 0 6 rfl,
    c7_failures_contained_or_exit.2.2.2.2.1 rOkCex cOkCex [1, 2, 3] 1
      (by decide) (Or.inl (by decide))⟩

/-- C8 counterexample: with the empty source collection, way1 main
performs zero connect attempts and still enters the poll loop, which
runs its full duration (three ticks here) with no active streams — it
idles instead of exiting at startup, contradicting the claim that the
process exits before entering the poll loop. -/
theorem c8_counterexample :
    (Way1.mainRun [] RTSP.oracleRaise2 2 3).connectAttempts = 0 ∧
    (Way1.mainRun [] RTSP.oracleRaise2 2 3).activeCount = 0 ∧
    (Way1.mainRun [] RTSP.oracleRaise2 2 3).pollIters = 3 :=
  ⟨rfl, rfl, rfl⟩

/-- C8 (amended): an empty source collection is not checked anywhere:
main creates no streamers, performs zero connection attempts, and enters
the poll loop with an empty active set, which runs one iteration per
tick for the whole configured duration rather than the process exiting
at startup. -/
theorem c8_empty_sources_idle_loop (o : Nat → Nat → RTSP.Attempt)
    (try_times ticks : Nat) :
    Way1.mainRun [] o try_times ticks = ⟨0, 0, 0, ticks⟩ := by
  simp [Way1.mainRun, Way1.MainTrace.mk.injEq, Way1.processStreamers_iters]

/-- C9: under any interleaving of the capture thread's lock-guarded
byte-wise publishes and the poll loop's lock-guarded byte-wise reads of
the shared frame slot, every completed read is one single complete
pattern (List.replicate L u for one value u): a reader never observes a
frame mixing the bytes of two captures. -/
theorem c9_no_torn_reads (L : Nat) (vs : List Nat) (sched : List Slot.Tid)
    (b : List Nat) (hb : b ∈ (Slot.run L (Slot.initSys vs) sched).reads) :
    ∃ u, b = List.replicate L u :=
  (Slot.inv_run L sched (Slot.initSys vs) (Slot.inv_initSys L vs)).readsOk b hb

/-- C9 witness: a schedule completing one full read against the seeded
slot yields the complete pattern of value 0. -/
theorem c9_witness : ∃ u, ([0] : List Nat) = List.replicate 1 u :=
  c9_no_torn_reads 1 [5] [Slot.Tid.reader, Slot.Tid.reader, Slot.Tid.reader]
    [0] (by decide)

/-- C10: read_next_frame on a streamer whose decoder handle is absent —
the never-connected initial state and the state left by release() both
have cap = None — returns (False, None) without consulting the decoder
at all, for every such streamer state and every decoder behavior. -/
theorem c10_read_absent_handle (s : Multi.RTSPstreamer)
    (decoder : Nat → Bool × Option Nat) (h : s.cap = none) :
    Multi.read_next_frame s decoder = (false, none) := by
  simp [Multi.read_next_frame, h]

/-- C10 witness: the never-connected streamer returns (False, None) even
against a decoder that would deliver a frame. -/
theorem c10_witness :
    Multi.read_next_frame ⟨none⟩ (fun _ => (true, some 9)) = (false, none) :=
  c10_read_absent_handle ⟨none⟩ (fun _ => (true, some 9)) rfl
